import Mathlib

/-!
# `js/src/util/GetPidProvider.h`

The header is a compile-time selection: depending on which of `XP_WIN`,
`JS_ENABLE_UWP` and `__wasi__` are defined it includes system headers and
defines (or does not define) a replacement for the name `getpid`.

The development below embeds the header as a function on the state of the
preprocessor, gives the call site `getpid()` its meaning by replacing the
defined names, resolving the remaining name against the declarations of the
included system headers, and evaluating the result in a state of the
operating system.
-/

set_option autoImplicit false

namespace GetPidProvider

/-! ## Preprocessor state -/

/-- Preprocessing tokens: the ones the header's replacement lists and the call
site `getpid()` are made of. -/
inductive Tok where
  | ident (name : String)
  | num (n : Nat)
  | lparen
  | rparen
  deriving DecidableEq, Repr

/-- What a `#define` binds a name to. -/
inductive Replacement where
  /-- An object-like definition, `#define NAME body`. -/
  | object (body : List Tok)
  /-- A function-like definition with an empty parameter list,
  `#define NAME() body`. -/
  | function (body : List Tok)
  deriving DecidableEq, Repr

/-- The directives of the header that have an effect outside it. -/
inductive Directive where
  | define (name : String) (r : Replacement)
  | includeSys (header : String)
  deriving DecidableEq, Repr

/-- State of the preprocessor inside one translation unit: the current
definitions (most recent first) and the effectful directives executed so far
(oldest first). -/
structure PP where
  defs : List (String × Replacement)
  trace : List Directive
  deriving DecidableEq, Repr

/-- The test of `#ifdef NAME` and of `defined(NAME)`. -/
def PP.defined (st : PP) (name : String) : Bool :=
  (st.defs.lookup name).isSome

/-- Execute `#define name r`. -/
def PP.define (st : PP) (name : String) (r : Replacement) : PP :=
  { defs := (name, r) :: st.defs, trace := st.trace ++ [Directive.define name r] }

/-- Execute `#include <header>`. -/
def PP.includeSys (st : PP) (header : String) : PP :=
  { st with trace := st.trace ++ [Directive.includeSys header] }

/-- The system headers included so far, in order. -/
def PP.includes (st : PP) : List String :=
  st.trace.filterMap fun d =>
    match d with
    | Directive.includeSys h => some h
    | Directive.define _ _ => none

/-- The names defined by the executed directives, in order. -/
def PP.definedNames (st : PP) : List String :=
  st.trace.filterMap fun d =>
    match d with
    | Directive.define n _ => some n
    | Directive.includeSys _ => none

/-- The header `util/GetPidProvider.h`, directive by directive. -/
def GetPidProvider_h (st : PP) : PP :=
  -- #ifndef util_GetPidProvider_h
  if st.defined "util_GetPidProvider_h" then st else
  -- #define util_GetPidProvider_h
  let st := st.define "util_GetPidProvider_h" (Replacement.object [])
  -- #ifdef XP_WIN
  if st.defined "XP_WIN" then
    -- #ifdef JS_ENABLE_UWP
    if st.defined "JS_ENABLE_UWP" then
      -- #define UNICODE
      let st := st.define "UNICODE" (Replacement.object [])
      -- #include <Windows.h>
      let st := st.includeSys "Windows.h"
      -- #include <processthreadsapi.h>
      let st := st.includeSys "processthreadsapi.h"
      -- #define getpid GetCurrentProcessId
      st.define "getpid" (Replacement.object [Tok.ident "GetCurrentProcessId"])
    else
      -- #include <process.h>
      let st := st.includeSys "process.h"
      -- #define getpid _getpid
      st.define "getpid" (Replacement.object [Tok.ident "_getpid"])
  -- #elif defined(__wasi__)
  else if st.defined "__wasi__" then
    -- #define getpid() 1
    st.define "getpid" (Replacement.function [Tok.num 1])
  else
    -- #include <unistd.h>
    st.includeSys "unistd.h"

/-! ## Build configurations -/

/-- A build configuration: which of the three names the header tests are
defined when the header is reached. -/
structure Config where
  XP_WIN : Bool
  JS_ENABLE_UWP : Bool
  __wasi__ : Bool
  deriving DecidableEq, Repr, Fintype

/-- The definitions a configuration starts a translation unit with (a name
given on the command line or by the compiler is defined as `1`). -/
def Config.predefined (cfg : Config) : List (String × Replacement) :=
  (if cfg.XP_WIN then [("XP_WIN", Replacement.object [Tok.num 1])] else []) ++
  (if cfg.JS_ENABLE_UWP then [("JS_ENABLE_UWP", Replacement.object [Tok.num 1])] else []) ++
  (if cfg.__wasi__ then [("__wasi__", Replacement.object [Tok.num 1])] else [])

/-- The preprocessor state at the start of a translation unit. -/
def Config.start (cfg : Config) : PP :=
  { defs := cfg.predefined, trace := [] }

/-- The preprocessor state after `#include "util/GetPidProvider.h"` at the
start of a translation unit built under `cfg`. -/
def Config.afterHeader (cfg : Config) : PP :=
  GetPidProvider_h cfg.start

/-! ## The call site `getpid()` -/

/-- One scan over a token sequence, replacing defined names. `again` rescans
a replacement list; `hide` holds the names whose replacement is in progress,
which are not replaced again. -/
def scan (defs : List (String × Replacement))
    (again : List String → List Tok → List Tok) (hide : List String) :
    List Tok → List Tok
  | [] => []
  | Tok.ident x :: Tok.lparen :: Tok.rparen :: rest =>
    if x ∈ hide then Tok.ident x :: Tok.lparen :: Tok.rparen :: scan defs again hide rest
    else
      match defs.lookup x with
      | some (Replacement.function body) => again (x :: hide) body ++ scan defs again hide rest
      | some (Replacement.object body) =>
        again (x :: hide) body ++ Tok.lparen :: Tok.rparen :: scan defs again hide rest
      | none => Tok.ident x :: Tok.lparen :: Tok.rparen :: scan defs again hide rest
  | Tok.ident x :: rest =>
    if x ∈ hide then Tok.ident x :: scan defs again hide rest
    else
      match defs.lookup x with
      | some (Replacement.object body) => again (x :: hide) body ++ scan defs again hide rest
      | _ => Tok.ident x :: scan defs again hide rest
  | t :: rest => t :: scan defs again hide rest

/-- Replacement of defined names with rescanning, nested at most `depth`
deep. -/
def expandDepth (defs : List (String × Replacement)) :
    Nat → List String → List Tok → List Tok
  | 0, _, ts => ts
  | depth + 1, hide, ts => scan defs (expandDepth defs depth) hide ts

/-- Full replacement: every level of nesting hides one more defined name, so
the number of definitions bounds the nesting. -/
def expand (defs : List (String × Replacement)) (ts : List Tok) : List Tok :=
  expandDepth defs (defs.length + 1) [] ts

/-- The tokens of the call `getpid()`. -/
def callSite : List Tok := [Tok.ident "getpid", Tok.lparen, Tok.rparen]

/-- What the call `getpid()` reads as after preprocessing. -/
def PP.expandCall (st : PP) : List Tok := expand st.defs callSite

/-- The four mechanisms the header chooses among. -/
inductive Mechanism where
  /-- The call `GetCurrentProcessId()`. -/
  | GetCurrentProcessId
  /-- The call `_getpid()`. -/
  | _getpid
  /-- The constant `1`. -/
  | constantOne
  /-- The function `getpid` of `<unistd.h>`. -/
  | posixGetpid
  deriving DecidableEq, Repr, Fintype

/-- What a mechanism looks like at the call site once the preprocessor is
done. -/
def Mechanism.tokens : Mechanism → List Tok
  | Mechanism.GetCurrentProcessId => [Tok.ident "GetCurrentProcessId", Tok.lparen, Tok.rparen]
  | Mechanism._getpid => [Tok.ident "_getpid", Tok.lparen, Tok.rparen]
  | Mechanism.constantOne => [Tok.num 1]
  | Mechanism.posixGetpid => [Tok.ident "getpid", Tok.lparen, Tok.rparen]

/-- The system header a mechanism is declared in, when it is a function. -/
def Mechanism.header : Mechanism → Option String
  | Mechanism.GetCurrentProcessId => some "processthreadsapi.h"
  | Mechanism._getpid => some "process.h"
  | Mechanism.constantOne => none
  | Mechanism.posixGetpid => some "unistd.h"

/-- A translation unit selects a mechanism when the call `getpid()` reads as
that mechanism and the header declaring it has been included. -/
def PP.selects (st : PP) (m : Mechanism) : Bool :=
  decide (st.expandCall = m.tokens) &&
    match m.header with
    | some h => decide (h ∈ st.includes)
    | none => true

/-! ## Platform, build and evaluation -/

/-- A function of the platform that reads the process identity: the name of
its return type and the value it reports in a state `σ` of the operating
system. It only reads the state. -/
structure Native (σ : Type) where
  ret : String
  query : σ → Int

/-- The platform a translation unit is built for: the declarations each of
its system headers provides, `none` for a header it does not have. -/
structure Platform (σ : Type) where
  header : String → Option (List (String × Native σ))

/-- The ways the build of a translation unit calling `getpid()` fails. -/
inductive BuildError where
  /-- An `#include` names a header the platform does not have. -/
  | unresolvedHeader (header : String)
  /-- The call names a function no included header declares. -/
  | unresolvedSymbol (name : String)
  /-- The call does not read as an expression. -/
  | malformed
  deriving DecidableEq, Repr

/-- A value together with the name of its type. -/
structure Value where
  ty : String
  val : Int
  deriving DecidableEq, Repr

/-- The declarations visible after the given includes. -/
def Platform.declarations {σ : Type} (p : Platform σ) :
    List String → Except BuildError (List (String × Native σ))
  | [] => Except.ok []
  | h :: hs =>
    match p.header h with
    | none => Except.error (BuildError.unresolvedHeader h)
    | some ds =>
      match p.declarations hs with
      | Except.error e => Except.error e
      | Except.ok more => Except.ok (ds ++ more)

/-- The expressions a call site can read as. -/
inductive CallExpr where
  | literal (n : Nat)
  | call (f : String)
  deriving DecidableEq, Repr

/-- Read preprocessed tokens as an expression. -/
def parseCall : List Tok → Option CallExpr
  | [Tok.num n] => some (CallExpr.literal n)
  | [Tok.ident f, Tok.lparen, Tok.rparen] => some (CallExpr.call f)
  | _ => none

/-- What the call site is compiled to. -/
inductive Code (σ : Type) where
  /-- An integer literal; it has type `int`. -/
  | const (n : Nat)
  /-- A call of a declared function. -/
  | invoke (f : String) (fn : Native σ)

/-- Compile the tokens of a call in a translation unit with the given
includes. -/
def compileTokens {σ : Type} (p : Platform σ) (includes : List String) (ts : List Tok) :
    Except BuildError (Code σ) :=
  match p.declarations includes with
  | Except.error e => Except.error e
  | Except.ok ds =>
    match parseCall ts with
    | none => Except.error BuildError.malformed
    | some (CallExpr.literal n) => Except.ok (Code.const n)
    | some (CallExpr.call f) =>
      match ds.lookup f with
      | none => Except.error (BuildError.unresolvedSymbol f)
      | some fn => Except.ok (Code.invoke f fn)

/-- Run compiled code in a state of the operating system. -/
def Code.run {σ : Type} : Code σ → σ → Value
  | Code.const n, _ => { ty := "int", val := (n : Int) }
  | Code.invoke _ fn, s => { ty := fn.ret, val := fn.query s }

/-- Build a translation unit that includes the header under `cfg` and then
calls `getpid()`. -/
def build {σ : Type} (p : Platform σ) (cfg : Config) : Except BuildError (Code σ) :=
  compileTokens p cfg.afterHeader.includes cfg.afterHeader.expandCall

/-- One evaluation of the call `getpid()` of a program built for platform `p`
under `cfg`, in the state `s`. -/
def getpid {σ : Type} (p : Platform σ) (cfg : Config) (s : σ) : Except BuildError Value :=
  match build p cfg with
  | Except.error e => Except.error e
  | Except.ok code => Except.ok (code.run s)

/-- A mechanism used directly, without the header's definitions: the call
site is the mechanism's own tokens. -/
def Mechanism.direct {σ : Type} (m : Mechanism) (p : Platform σ) (includes : List String)
    (s : σ) : Except BuildError Value :=
  match compileTokens p includes m.tokens with
  | Except.error e => Except.error e
  | Except.ok code => Except.ok (code.run s)

/-- Successive evaluations of `getpid()`, one for each state in `states`
(the state the program and its environment are in at that call). -/
def getpidLoop {σ : Type} (p : Platform σ) (cfg : Config) (states : List σ) :
    List (Except BuildError Value) :=
  states.map (getpid p cfg)

/-! ## Example platforms -/

/-- An example platform with no system header at all; its state carries
nothing. -/
def barePlatform : Platform Unit :=
  { header := fun _ => none }

/-- An example POSIX platform: `<unistd.h>` declares `getpid`, returning
`pid_t`; the state is the identifier the system gave the process. -/
def posixPlatform : Platform Int :=
  { header := fun h =>
      if h = "unistd.h" then some [("getpid", { ret := "pid_t", query := fun s => s })]
      else none }

/-- An example Windows platform: `<process.h>` declares `_getpid`, returning
`int`, and `<processthreadsapi.h>` declares `GetCurrentProcessId`, returning
`DWORD`; the state is the identifier the system gave the process. -/
def windowsPlatform : Platform Int :=
  { header := fun h =>
      if h = "process.h" then some [("_getpid", { ret := "int", query := fun s => s })]
      else if h = "Windows.h" then some []
      else if h = "processthreadsapi.h" then
        some [("GetCurrentProcessId", { ret := "DWORD", query := fun s => s })]
      else none }

/-- An example platform that has `<unistd.h>` but no `getpid` in it. -/
def strippedPlatform : Platform Unit :=
  { header := fun h => if h = "unistd.h" then some [] else none }

/-! ## The header in any state of the preprocessor -/

/-- Defining the guard does not change the outcome of a test of another
name. -/
theorem defined_after_guard (st : PP) (name : String) (h : name ≠ "util_GetPidProvider_h") :
    (st.define "util_GetPidProvider_h" (Replacement.object [])).defined name
      = st.defined name := by
  have e : (name == "util_GetPidProvider_h") = false := beq_eq_false_iff_ne.mpr h
  simp [PP.define, PP.defined, List.lookup, e]

/-- In any state of the preprocessor in which the guard is not yet defined,
the directives the header executes are decided by the three tests alone. -/
theorem GetPidProvider_h_trace (st : PP) (hg : st.defined "util_GetPidProvider_h" = false) :
    (GetPidProvider_h st).trace =
      st.trace ++
        Directive.define "util_GetPidProvider_h" (Replacement.object []) ::
          (if st.defined "XP_WIN" then
            (if st.defined "JS_ENABLE_UWP" then
              [Directive.define "UNICODE" (Replacement.object []),
               Directive.includeSys "Windows.h",
               Directive.includeSys "processthreadsapi.h",
               Directive.define "getpid" (Replacement.object [Tok.ident "GetCurrentProcessId"])]
            else
              [Directive.includeSys "process.h",
               Directive.define "getpid" (Replacement.object [Tok.ident "_getpid"])])
          else if st.defined "__wasi__" then
            [Directive.define "getpid" (Replacement.function [Tok.num 1])]
          else
            [Directive.includeSys "unistd.h"]) := by
  unfold GetPidProvider_h
  simp only [hg, Bool.false_eq_true, if_false]
  rw [defined_after_guard st "XP_WIN" (by decide),
    defined_after_guard st "JS_ENABLE_UWP" (by decide),
    defined_after_guard st "__wasi__" (by decide)]
  split_ifs <;> simp [PP.define, PP.includeSys]

/-- In any state of the preprocessor in which the guard is defined, the
header does nothing. -/
theorem GetPidProvider_h_guarded (st : PP) (hg : st.defined "util_GetPidProvider_h" = true) :
    GetPidProvider_h st = st := by
  simp [GetPidProvider_h, hg]

/-- In any state of the preprocessor in which the guard is not yet defined,
the definitions after the header are the header's own on top of the ones it
found. -/
theorem GetPidProvider_h_defs (st : PP) (hg : st.defined "util_GetPidProvider_h" = false) :
    (GetPidProvider_h st).defs =
      (if st.defined "XP_WIN" then
        (if st.defined "JS_ENABLE_UWP" then
          [("getpid", Replacement.object [Tok.ident "GetCurrentProcessId"]),
           ("UNICODE", Replacement.object [])]
        else
          [("getpid", Replacement.object [Tok.ident "_getpid"])])
      else if st.defined "__wasi__" then
        [("getpid", Replacement.function [Tok.num 1])]
      else [])
      ++ ("util_GetPidProvider_h", Replacement.object []) :: st.defs := by
  unfold GetPidProvider_h
  simp only [hg, Bool.false_eq_true, if_false]
  rw [defined_after_guard st "XP_WIN" (by decide),
    defined_after_guard st "JS_ENABLE_UWP" (by decide),
    defined_after_guard st "__wasi__" (by decide)]
  split_ifs <;> simp [PP.define, PP.includeSys]

/-- In any state of the preprocessor in which the guard is not yet defined and
none of `GetCurrentProcessId`, `_getpid` and (off Windows and the sandbox)
`getpid` is already defined, the call `getpid()` after the header reads as the
mechanism the three tests pick. -/
theorem GetPidProvider_h_expandCall (st : PP)
    (hg : st.defined "util_GetPidProvider_h" = false)
    (h1 : st.defined "GetCurrentProcessId" = false) (h2 : st.defined "_getpid" = false)
    (h3 : st.defined "XP_WIN" = false → st.defined "__wasi__" = false →
      st.defined "getpid" = false) :
    (GetPidProvider_h st).expandCall =
      if st.defined "XP_WIN" then
        (if st.defined "JS_ENABLE_UWP" then Mechanism.GetCurrentProcessId.tokens
         else Mechanism._getpid.tokens)
      else if st.defined "__wasi__" then Mechanism.constantOne.tokens
      else Mechanism.posixGetpid.tokens := by
  have l1 : st.defs.lookup "GetCurrentProcessId" = none := by
    simpa [PP.defined] using h1
  have l2 : st.defs.lookup "_getpid" = none := by
    simpa [PP.defined] using h2
  unfold PP.expandCall
  rw [GetPidProvider_h_defs st hg]
  by_cases hx : st.defined "XP_WIN" = true
  · by_cases hu : st.defined "JS_ENABLE_UWP" = true
    · simp [hx, hu, expand, expandDepth, scan, callSite, List.lookup, Mechanism.tokens, l1]
    · simp [hx, hu, expand, expandDepth, scan, callSite, List.lookup, Mechanism.tokens, l2]
  · by_cases hw : st.defined "__wasi__" = true
    · simp [hx, hw, expand, expandDepth, scan, callSite, List.lookup, Mechanism.tokens]
    · have l3 : st.defs.lookup "getpid" = none := by
        simpa [PP.defined] using h3 (by simpa using hx) (by simpa using hw)
      simp [hx, hw, expand, expandDepth, scan, callSite, List.lookup, Mechanism.tokens, l3]

/-- The directives the header executes, by configuration. -/
theorem afterHeader_trace (cfg : Config) :
    cfg.afterHeader.trace =
      Directive.define "util_GetPidProvider_h" (Replacement.object []) ::
        (if cfg.XP_WIN then
          (if cfg.JS_ENABLE_UWP then
            [Directive.define "UNICODE" (Replacement.object []),
             Directive.includeSys "Windows.h",
             Directive.includeSys "processthreadsapi.h",
             Directive.define "getpid" (Replacement.object [Tok.ident "GetCurrentProcessId"])]
          else
            [Directive.includeSys "process.h",
             Directive.define "getpid" (Replacement.object [Tok.ident "_getpid"])])
        else if cfg.__wasi__ then
          [Directive.define "getpid" (Replacement.function [Tok.num 1])]
        else
          [Directive.includeSys "unistd.h"]) := by
  revert cfg; decide

/-- The system headers the header includes, by configuration. -/
theorem afterHeader_includes (cfg : Config) :
    cfg.afterHeader.includes =
      if cfg.XP_WIN then
        (if cfg.JS_ENABLE_UWP then ["Windows.h", "processthreadsapi.h"] else ["process.h"])
      else if cfg.__wasi__ then [] else ["unistd.h"] := by
  revert cfg; decide

/-- What the call `getpid()` reads as, by configuration. -/
theorem afterHeader_expandCall (cfg : Config) :
    cfg.afterHeader.expandCall =
      if cfg.XP_WIN then
        (if cfg.JS_ENABLE_UWP then Mechanism.GetCurrentProcessId.tokens
         else Mechanism._getpid.tokens)
      else if cfg.__wasi__ then Mechanism.constantOne.tokens
      else Mechanism.posixGetpid.tokens := by
  revert cfg; decide

/-- The mechanism a configuration selects, by configuration. -/
theorem afterHeader_selects (cfg : Config) (m : Mechanism) :
    cfg.afterHeader.selects m = true ↔
      m = (if cfg.XP_WIN then
            (if cfg.JS_ENABLE_UWP then Mechanism.GetCurrentProcessId else Mechanism._getpid)
          else if cfg.__wasi__ then Mechanism.constantOne
          else Mechanism.posixGetpid) := by
  revert cfg m; decide

/-- Including the header a second time changes nothing: the guard is
defined. -/
theorem GetPidProvider_h_twice (cfg : Config) :
    GetPidProvider_h cfg.afterHeader = cfg.afterHeader := by
  revert cfg; decide

/-- What the name `getpid` is defined as after the header, by configuration. -/
theorem afterHeader_lookup_getpid (cfg : Config) :
    cfg.afterHeader.defs.lookup "getpid" =
      if cfg.XP_WIN then
        (if cfg.JS_ENABLE_UWP then some (Replacement.object [Tok.ident "GetCurrentProcessId"])
         else some (Replacement.object [Tok.ident "_getpid"]))
      else if cfg.__wasi__ then some (Replacement.function [Tok.num 1])
      else none := by
  revert cfg; decide

/-- The names the header defines, by configuration. -/
theorem afterHeader_definedNames (cfg : Config) :
    cfg.afterHeader.definedNames =
      "util_GetPidProvider_h" ::
        (if cfg.XP_WIN then
          (if cfg.JS_ENABLE_UWP then ["UNICODE", "getpid"] else ["getpid"])
        else if cfg.__wasi__ then ["getpid"] else []) := by
  revert cfg; decide

/-- A call of a name that an included header declares compiles to a call of
the declared function. -/
theorem compileTokens_call {σ : Type} (p : Platform σ) (includes : List String) (f : String)
    (ds : List (String × Native σ)) (fn : Native σ)
    (hd : p.declarations includes = Except.ok ds) (hf : ds.lookup f = some fn) :
    compileTokens p includes [Tok.ident f, Tok.lparen, Tok.rparen]
      = Except.ok (Code.invoke f fn) := by
  simp [compileTokens, hd, parseCall, hf]

/-- The evaluation of `getpid()` in terms of the header's includes and of what
the call reads as. -/
theorem getpid_eq_compile {σ : Type} (p : Platform σ) (cfg : Config) (s : σ) :
    getpid p cfg s =
      match compileTokens p cfg.afterHeader.includes cfg.afterHeader.expandCall with
      | Except.error e => Except.error e
      | Except.ok code => Except.ok (code.run s) := rfl

/-! ## The sandboxed build -/

/-- C1: on the sandboxed build (`__wasi__` defined, `XP_WIN` not defined), for
every number `n` of calls (so for every `n ≥ 1`, and for `n = 1000`), each of
the `n` evaluations of `getpid()` yields the constant `1` of type `int`,
whatever the platform and whatever state the program and its environment are
in at each call. -/
theorem getpid_wasi_constant {σ : Type} (p : Platform σ) (cfg : Config)
    (hw : cfg.__wasi__ = true) (hx : cfg.XP_WIN = false)
    (n : Nat) (states : List σ) (hlen : states.length = n) :
    getpidLoop p cfg states = List.replicate n (Except.ok { ty := "int", val := 1 }) ∧
    ∀ r ∈ getpidLoop p cfg states, r = Except.ok { ty := "int", val := 1 } := by
  have one : ∀ s : σ, getpid p cfg s = Except.ok { ty := "int", val := 1 } := by
    intro s
    rw [getpid_eq_compile, afterHeader_includes, afterHeader_expandCall]
    simp [hw, hx, compileTokens, Platform.declarations, Mechanism.tokens, parseCall, Code.run]
  have all : getpidLoop p cfg states
      = List.replicate n (Except.ok { ty := "int", val := 1 }) := by
    subst hlen
    unfold getpidLoop
    induction states with
    | nil => rfl
    | cons s rest ih => simp [List.replicate_succ, one, ih]
  refine ⟨all, ?_⟩
  intro r hr
  rw [all] at hr
  exact List.eq_of_mem_replicate hr

/-- C1 at a concrete input: a thousand calls on a platform without any system
header. -/
theorem getpid_wasi_constant_witness :
    ((Config.mk false false true).__wasi__ = true ∧ (Config.mk false false true).XP_WIN = false ∧
      (List.replicate 1000 ()).length = 1000) ∧
    getpidLoop barePlatform (Config.mk false false true) (List.replicate 1000 ())
      = List.replicate 1000 (Except.ok { ty := "int", val := 1 }) :=
  ⟨⟨rfl, rfl, List.length_replicate 1000 ()⟩,
    (getpid_wasi_constant barePlatform (Config.mk false false true) rfl rfl 1000
      (List.replicate 1000 ()) (List.length_replicate 1000 ())).1⟩

/-! ## The three builds that call a function of the platform -/

/-- C2: in every configuration with `XP_WIN` and `JS_ENABLE_UWP` both defined
the header includes `Windows.h` and `processthreadsapi.h`, defines `getpid` as
`GetCurrentProcessId`, and the call `getpid()` reads as
`GetCurrentProcessId()`: that mechanism and no other is selected, and on a
platform whose two headers declare `GetCurrentProcessId` the call is a call of
that function. -/
theorem uwp_calls_GetCurrentProcessId (cfg : Config)
    (hx : cfg.XP_WIN = true) (hu : cfg.JS_ENABLE_UWP = true) :
    cfg.afterHeader.includes = ["Windows.h", "processthreadsapi.h"] ∧
    cfg.afterHeader.defs.lookup "getpid"
      = some (Replacement.object [Tok.ident "GetCurrentProcessId"]) ∧
    cfg.afterHeader.expandCall = [Tok.ident "GetCurrentProcessId", Tok.lparen, Tok.rparen] ∧
    (∀ m : Mechanism, cfg.afterHeader.selects m = true ↔ m = Mechanism.GetCurrentProcessId) ∧
    (∀ {σ : Type} (p : Platform σ) (ds : List (String × Native σ)) (fn : Native σ),
      p.declarations ["Windows.h", "processthreadsapi.h"] = Except.ok ds →
      ds.lookup "GetCurrentProcessId" = some fn →
      build p cfg = Except.ok (Code.invoke "GetCurrentProcessId" fn) ∧
      ∀ s : σ, getpid p cfg s = Except.ok { ty := fn.ret, val := fn.query s }) := by
  have hi := afterHeader_includes cfg
  have he := afterHeader_expandCall cfg
  have hl := afterHeader_lookup_getpid cfg
  simp only [hx, hu, if_true] at hi he hl
  refine ⟨hi, hl, he, ?_, ?_⟩
  · intro m
    simpa [hx, hu] using afterHeader_selects cfg m
  · intro σ p ds fn hd hf
    have hb : build p cfg = Except.ok (Code.invoke "GetCurrentProcessId" fn) := by
      unfold build
      rw [hi, he]
      exact compileTokens_call p _ _ ds fn hd hf
    refine ⟨hb, fun s => ?_⟩
    simp [getpid, hb, Code.run]

/-- C2 at a concrete input: the UWP configuration on the example Windows
platform, in the state where the process has identifier 4242. -/
theorem uwp_calls_GetCurrentProcessId_witness :
    ((Config.mk true true false).XP_WIN = true ∧
      (Config.mk true true false).JS_ENABLE_UWP = true) ∧
    (Config.mk true true false).afterHeader.includes = ["Windows.h", "processthreadsapi.h"] ∧
    (Config.mk true true false).afterHeader.expandCall
      = [Tok.ident "GetCurrentProcessId", Tok.lparen, Tok.rparen] ∧
    getpid windowsPlatform (Config.mk true true false) 4242
      = Except.ok { ty := "DWORD", val := 4242 } :=
  have h := uwp_calls_GetCurrentProcessId (Config.mk true true false) rfl rfl
  ⟨⟨rfl, rfl⟩, h.1, h.2.2.1,
    (h.2.2.2.2 windowsPlatform
      [("GetCurrentProcessId", { ret := "DWORD", query := fun s => s })]
      { ret := "DWORD", query := fun s => s } rfl rfl).2 4242⟩

/-- C3: in every configuration with `XP_WIN` defined and `JS_ENABLE_UWP` not
defined the header includes `process.h` and nothing else (so neither
`Windows.h` nor `unistd.h`), defines `getpid` as `_getpid`, and the call
`getpid()` reads as `_getpid()`: that mechanism is the one selected, and on a
platform whose `process.h` declares `_getpid` the call is a call of that
function. -/
theorem win_calls__getpid (cfg : Config)
    (hx : cfg.XP_WIN = true) (hu : cfg.JS_ENABLE_UWP = false) :
    cfg.afterHeader.includes = ["process.h"] ∧
    "Windows.h" ∉ cfg.afterHeader.includes ∧
    "unistd.h" ∉ cfg.afterHeader.includes ∧
    cfg.afterHeader.defs.lookup "getpid" = some (Replacement.object [Tok.ident "_getpid"]) ∧
    cfg.afterHeader.expandCall = [Tok.ident "_getpid", Tok.lparen, Tok.rparen] ∧
    (∀ m : Mechanism, cfg.afterHeader.selects m = true ↔ m = Mechanism._getpid) ∧
    (∀ {σ : Type} (p : Platform σ) (ds : List (String × Native σ)) (fn : Native σ),
      p.header "process.h" = some ds →
      ds.lookup "_getpid" = some fn →
      build p cfg = Except.ok (Code.invoke "_getpid" fn) ∧
      ∀ s : σ, getpid p cfg s = Except.ok { ty := fn.ret, val := fn.query s }) := by
  have hi := afterHeader_includes cfg
  have he := afterHeader_expandCall cfg
  have hl := afterHeader_lookup_getpid cfg
  simp only [hx, hu, if_true, Bool.false_eq_true, if_false] at hi he hl
  refine ⟨hi, ?_, ?_, hl, he, ?_, ?_⟩
  · rw [hi]; decide
  · rw [hi]; decide
  · intro m
    simpa [hx, hu] using afterHeader_selects cfg m
  · intro σ p ds fn hd hf
    have hb : build p cfg = Except.ok (Code.invoke "_getpid" fn) := by
      unfold build
      rw [hi, he]
      refine compileTokens_call p _ _ ds fn ?_ hf
      simp [Platform.declarations, hd]
    refine ⟨hb, fun s => ?_⟩
    simp [getpid, hb, Code.run]

/-- C3 at a concrete input: the plain Windows configuration on the example
Windows platform, in the state where the process has identifier 4242. -/
theorem win_calls__getpid_witness :
    ((Config.mk true false false).XP_WIN = true ∧
      (Config.mk true false false).JS_ENABLE_UWP = false) ∧
    (Config.mk true false false).afterHeader.includes = ["process.h"] ∧
    (Config.mk true false false).afterHeader.expandCall
      = [Tok.ident "_getpid", Tok.lparen, Tok.rparen] ∧
    getpid windowsPlatform (Config.mk true false false) 4242
      = Except.ok { ty := "int", val := 4242 } :=
  have h := win_calls__getpid (Config.mk true false false) rfl rfl
  ⟨⟨rfl, rfl⟩, h.1, h.2.2.2.2.1,
    (h.2.2.2.2.2.2 windowsPlatform
      [("_getpid", { ret := "int", query := fun s => s })]
      { ret := "int", query := fun s => s } rfl rfl).2 4242⟩

/-- C4: in every configuration with neither `XP_WIN` nor `__wasi__` defined
the header includes `unistd.h`, defines no replacement for `getpid`, and the
call `getpid()` is left as it is written: the `getpid` of `unistd.h` is the
mechanism selected, and on a platform whose `unistd.h` declares `getpid` the
call is a call of that function. -/
theorem posix_calls_unistd_getpid (cfg : Config)
    (hx : cfg.XP_WIN = false) (hw : cfg.__wasi__ = false) :
    cfg.afterHeader.includes = ["unistd.h"] ∧
    "getpid" ∉ cfg.afterHeader.definedNames ∧
    cfg.afterHeader.defs.lookup "getpid" = none ∧
    cfg.afterHeader.expandCall = [Tok.ident "getpid", Tok.lparen, Tok.rparen] ∧
    (∀ m : Mechanism, cfg.afterHeader.selects m = true ↔ m = Mechanism.posixGetpid) ∧
    (∀ {σ : Type} (p : Platform σ) (ds : List (String × Native σ)) (fn : Native σ),
      p.header "unistd.h" = some ds →
      ds.lookup "getpid" = some fn →
      build p cfg = Except.ok (Code.invoke "getpid" fn) ∧
      ∀ s : σ, getpid p cfg s = Except.ok { ty := fn.ret, val := fn.query s }) := by
  have hi := afterHeader_includes cfg
  have he := afterHeader_expandCall cfg
  have hl := afterHeader_lookup_getpid cfg
  have hn := afterHeader_definedNames cfg
  simp only [hx, hw, Bool.false_eq_true, if_false] at hi he hl hn
  refine ⟨hi, ?_, hl, he, ?_, ?_⟩
  · rw [hn]; decide
  · intro m
    simpa [hx, hw] using afterHeader_selects cfg m
  · intro σ p ds fn hd hf
    have hb : build p cfg = Except.ok (Code.invoke "getpid" fn) := by
      unfold build
      rw [hi, he]
      refine compileTokens_call p _ _ ds fn ?_ hf
      simp [Platform.declarations, hd]
    refine ⟨hb, fun s => ?_⟩
    simp [getpid, hb, Code.run]

/-- C4 at a concrete input: the configuration with no name defined on the
example POSIX platform, in the state where the process has identifier 4242. -/
theorem posix_calls_unistd_getpid_witness :
    ((Config.mk false false false).XP_WIN = false ∧
      (Config.mk false false false).__wasi__ = false) ∧
    (Config.mk false false false).afterHeader.includes = ["unistd.h"] ∧
    (Config.mk false false false).afterHeader.expandCall
      = [Tok.ident "getpid", Tok.lparen, Tok.rparen] ∧
    getpid posixPlatform (Config.mk false false false) 4242
      = Except.ok { ty := "pid_t", val := 4242 } :=
  have h := posix_calls_unistd_getpid (Config.mk false false false) rfl rfl
  ⟨⟨rfl, rfl⟩, h.1, h.2.2.2.1,
    (h.2.2.2.2.2 posixPlatform
      [("getpid", { ret := "pid_t", query := fun s => s })]
      { ret := "pid_t", query := fun s => s } rfl rfl).2 4242⟩

/-! ## The selection as a whole -/

/-- C5: there are 8 combinations of the three flags, and each of them selects
exactly one of the four mechanisms: at least one, and never two. -/
theorem each_config_selects_exactly_one :
    Fintype.card Config = 8 ∧
    (∀ cfg : Config, ∃! m : Mechanism, cfg.afterHeader.selects m = true) ∧
    (∀ cfg : Config,
      (Finset.univ.filter fun m : Mechanism => cfg.afterHeader.selects m = true).card = 1) := by
  refine ⟨by decide, ?_, by decide⟩
  intro cfg
  exact ⟨_, (afterHeader_selects cfg _).2 rfl, fun m h => (afterHeader_selects cfg m).1 h⟩

/-! ## Repeated calls and the value returned -/

/-- C7: in every configuration the call `getpid()` reads as exactly the tokens
of the selected mechanism, nothing before, around or after them, and its
evaluation is the evaluation of that mechanism used directly: when the build
produces a call of a declared function the result has that function's return
type and the very value the function reports, and when it produces a constant
the result is the `int` 1. -/
theorem getpid_is_the_mechanism {σ : Type} (p : Platform σ) (cfg : Config) (s : σ) :
    (∃ m : Mechanism, cfg.afterHeader.selects m = true ∧
      cfg.afterHeader.expandCall = m.tokens ∧
      getpid p cfg s = m.direct p cfg.afterHeader.includes s) ∧
    (∀ (f : String) (fn : Native σ), build p cfg = Except.ok (Code.invoke f fn) →
      getpid p cfg s = Except.ok { ty := fn.ret, val := fn.query s }) ∧
    (∀ n : Nat, build p cfg = Except.ok (Code.const n) →
      n = 1 ∧ getpid p cfg s = Except.ok { ty := "int", val := 1 }) := by
  refine ⟨?_, ?_, ?_⟩
  · refine ⟨_, (afterHeader_selects cfg _).2 rfl, ?_, ?_⟩
    · rw [afterHeader_expandCall]
      rcases cfg with ⟨x, u, w⟩
      cases x <;> cases u <;> cases w <;> rfl
    · rw [getpid_eq_compile, afterHeader_expandCall]
      rcases cfg with ⟨x, u, w⟩
      cases x <;> cases u <;> cases w <;> rfl
  · intro f fn hb
    simp [getpid, hb, Code.run]
  · intro n hb
    have hn : n = 1 := by
      unfold build at hb
      rw [afterHeader_expandCall] at hb
      rcases cfg with ⟨x, u, w⟩
      cases x <;> cases u <;> cases w <;>
        simp only [if_true, Bool.false_eq_true, if_false, compileTokens, Mechanism.tokens,
          parseCall] at hb <;>
        (split at hb <;> try split at hb) <;> simp_all
    subst hn
    exact ⟨rfl, by simp [getpid, hb, Code.run]⟩

/-! ## Targets the header does not know -/

/-- C8: when neither `XP_WIN` nor `__wasi__` is defined and the platform does
not provide `getpid` through `unistd.h` (it has no such header, or the header
does not declare the function), the header defines no replacement for
`getpid`, the call stays the bare name `getpid`, and the build fails on an
unresolved reference: to the header `unistd.h` or to the name `getpid`. No
evaluation of `getpid()` yields a value. -/
theorem unknown_target_fails_to_build {σ : Type} (p : Platform σ) (cfg : Config)
    (hx : cfg.XP_WIN = false) (hw : cfg.__wasi__ = false)
    (hno : ∀ ds : List (String × Native σ),
      p.header "unistd.h" = some ds → ds.lookup "getpid" = none) :
    "getpid" ∉ cfg.afterHeader.definedNames ∧
    cfg.afterHeader.defs.lookup "getpid" = none ∧
    cfg.afterHeader.expandCall = callSite ∧
    (build p cfg = Except.error (BuildError.unresolvedHeader "unistd.h") ∨
      build p cfg = Except.error (BuildError.unresolvedSymbol "getpid")) ∧
    (∀ s : σ, getpid p cfg s = Except.error (BuildError.unresolvedHeader "unistd.h") ∨
      getpid p cfg s = Except.error (BuildError.unresolvedSymbol "getpid")) := by
  have hi := afterHeader_includes cfg
  have he := afterHeader_expandCall cfg
  have hl := afterHeader_lookup_getpid cfg
  have hn := afterHeader_definedNames cfg
  simp only [hx, hw, Bool.false_eq_true, if_false] at hi he hl hn
  have hb : build p cfg = Except.error (BuildError.unresolvedHeader "unistd.h") ∨
      build p cfg = Except.error (BuildError.unresolvedSymbol "getpid") := by
    unfold build
    rw [hi, he]
    cases hd : p.header "unistd.h" with
    | none =>
      left
      simp [compileTokens, Platform.declarations, hd]
    | some ds =>
      right
      simp [compileTokens, Platform.declarations, hd, Mechanism.tokens, parseCall, hno ds hd]
  refine ⟨?_, hl, he, hb, ?_⟩
  · rw [hn]; decide
  · intro s
    rcases hb with hb | hb
    · left; simp [getpid, hb]
    · right; simp [getpid, hb]

/-- C8 at a concrete input: no name defined, on the example platform whose
`unistd.h` declares no `getpid`. -/
theorem unknown_target_fails_to_build_witness :
    ((Config.mk false false false).XP_WIN = false ∧
      (Config.mk false false false).__wasi__ = false ∧
      strippedPlatform.header "unistd.h" = some [] ∧
      ([] : List (String × Native Unit)).lookup "getpid" = none) ∧
    (build strippedPlatform (Config.mk false false false)
        = Except.error (BuildError.unresolvedHeader "unistd.h") ∨
      build strippedPlatform (Config.mk false false false)
        = Except.error (BuildError.unresolvedSymbol "getpid")) :=
  ⟨⟨rfl, rfl, rfl, rfl⟩,
    (unknown_target_fails_to_build strippedPlatform (Config.mk false false false) rfl rfl
      (fun ds hd => by
        have h : some ([] : List (String × Native Unit)) = some ds := hd
        rw [← Option.some.inj h]
        rfl)).2.2.2.1⟩

/-! ## Which test comes first -/

/-- C9: with `XP_WIN` defined, defining or not defining `__wasi__` changes
neither the directives the header executes, nor what `getpid()` reads as, nor
the mechanism selected, nor any evaluation; the constant `1` is selected
exactly when `__wasi__` is defined and `XP_WIN` is not; and with `XP_WIN` not
defined, `JS_ENABLE_UWP` changes nothing either. -/
theorem xp_win_test_comes_first :
    (∀ (cfg : Config) (b : Bool), cfg.XP_WIN = true →
      ({ cfg with __wasi__ := b } : Config).afterHeader.trace = cfg.afterHeader.trace ∧
      ({ cfg with __wasi__ := b } : Config).afterHeader.expandCall
        = cfg.afterHeader.expandCall ∧
      (∀ m : Mechanism, ({ cfg with __wasi__ := b } : Config).afterHeader.selects m
        = cfg.afterHeader.selects m) ∧
      (cfg.afterHeader.selects Mechanism.GetCurrentProcessId = true ∨
        cfg.afterHeader.selects Mechanism._getpid = true)) ∧
    (∀ cfg : Config, cfg.afterHeader.selects Mechanism.constantOne = true ↔
      (cfg.__wasi__ = true ∧ cfg.XP_WIN = false)) ∧
    (∀ cfg : Config, cfg.afterHeader.expandCall = [Tok.num 1] ↔
      (cfg.__wasi__ = true ∧ cfg.XP_WIN = false)) ∧
    (∀ (cfg : Config) (b : Bool), cfg.XP_WIN = false →
      ({ cfg with JS_ENABLE_UWP := b } : Config).afterHeader.trace = cfg.afterHeader.trace ∧
      ({ cfg with JS_ENABLE_UWP := b } : Config).afterHeader.expandCall
        = cfg.afterHeader.expandCall ∧
      (∀ m : Mechanism, ({ cfg with JS_ENABLE_UWP := b } : Config).afterHeader.selects m
        = cfg.afterHeader.selects m)) ∧
    (∀ {σ : Type} (p : Platform σ) (s : σ) (cfg : Config) (b : Bool),
      (cfg.XP_WIN = true →
        getpid p ({ cfg with __wasi__ := b } : Config) s = getpid p cfg s) ∧
      (cfg.XP_WIN = false →
        getpid p ({ cfg with JS_ENABLE_UWP := b } : Config) s = getpid p cfg s)) := by
  refine ⟨by decide, by decide, by decide, by decide, ?_⟩
  intro σ p s cfg b
  constructor
  · intro hx
    have hi : ({ cfg with __wasi__ := b } : Config).afterHeader.includes
        = cfg.afterHeader.includes := by
      revert cfg b; decide
    have he : ({ cfg with __wasi__ := b } : Config).afterHeader.expandCall
        = cfg.afterHeader.expandCall := by
      revert cfg b; decide
    rw [getpid_eq_compile, getpid_eq_compile, hi, he]
  · intro hx
    have hi : ({ cfg with JS_ENABLE_UWP := b } : Config).afterHeader.includes
        = cfg.afterHeader.includes := by
      revert cfg b; decide
    have he : ({ cfg with JS_ENABLE_UWP := b } : Config).afterHeader.expandCall
        = cfg.afterHeader.expandCall := by
      revert cfg b; decide
    rw [getpid_eq_compile, getpid_eq_compile, hi, he]

/-! ## The names the header defines -/

end GetPidProvider
